import Mathlib

/-!
Shallow embedding of the SurveyXact respondent-answer reconciliation code
(`RespondentAnswers.get_answers` in `surveyxact.utility.py`) and of the
peripheral respondent uploader (`CreateRespondent.insert_respondent` /
`CreateRespondent.save_respondent_to_db` in the same file).

The HTTP fetches and the XML-to-dict parsing that precede reconciliation are
the peripheral boundary: the embedding starts from the already-parsed nested
documents.  Dynamic dictionary keys that the Python code reads with a bare
`d[k]` index are modelled as required structure fields when the code never
handles their absence and no claim concerns them (`@key`, `@name`, `@value`,
`choice`, `text`), and as `Option` fields when the code reads them with
`.get(...)` or when a claim is about the failure on their absence (the
structural containers, `#text`, `varChoice`, `valueSingle`, `valueText`).
-/

/-- Python dict specialised to string keys: an association list in insertion
order where a repeated key overwrites the stored value in place. -/
abbrev Dict (α : Type) : Type := List (String × α)

/-- Lookup of a key, mirroring Python `d.get(k)`: the value stored at the
first (and, with `Dict.set` discipline, only) occurrence of the key. -/
def Dict.get? {α : Type} (m : Dict α) (k : String) : Option α :=
  (m.find? (fun p => p.1 == k)).map (fun p => p.2)

/-- Python `d[k] = v`: overwrite the value in place when the key is present,
append the pair otherwise. -/
def Dict.set {α : Type} (m : Dict α) (k : String) (v : α) : Dict α :=
  if m.any (fun p => p.1 == k) then
    m.map (fun p => if p.1 == k then (k, v) else p)
  else
    m ++ [(k, v)]

/-- An xmltodict text element: its `#text` key may be absent. -/
structure TextBlock where
  hashText : Option String
deriving Repr, DecidableEq

/-- One `varChoice` entry of a questionnaire variable: `@value` and its
`text` block. -/
structure VarChoice where
  value : String
  text : TextBlock
deriving Repr, DecidableEq

/-- One `variable` entry of the questionnaire `foreground` section: `@name`,
`text` block, and the optional `varChoice` list (the code tests
`if 'varChoice' in item`). -/
structure QVar where
  name : String
  text : TextBlock
  varChoice : Option (List VarChoice)
deriving Repr, DecidableEq

/-- The `foreground` container of the questionnaire document. -/
structure Foreground where
  «variable» : Option (List QVar)
deriving Repr, DecidableEq

/-- The `questionnaire` container. -/
structure QuestionnaireBody where
  foreground : Option Foreground
deriving Repr, DecidableEq

/-- The parsed questionnaire document. -/
structure QDoc where
  questionnaire : Option QuestionnaireBody
deriving Repr, DecidableEq

/-- One `valueSingle` entry of the respondent answer document: a coded
choice answer with `@name` and `choice/@value`. -/
structure ValueSingle where
  name : String
  choiceValue : String
deriving Repr, DecidableEq

/-- One `valueText` entry of the respondent answer document: a free-text
answer with `@name` and possibly-absent `#text`. -/
structure ValueText where
  name : String
  hashText : Option String
deriving Repr, DecidableEq

/-- The `answer` container of the respondent document; the code reads both
lists with `.get(..., [])`, so an absent key is the empty list. -/
structure AnswerBlock where
  valueSingle : List ValueSingle
  valueText : List ValueText
deriving Repr, DecidableEq

/-- The `respondentanswer` container: `@key` and the `answer` block. -/
structure RespondentAnswerBody where
  key : String
  answer : Option AnswerBlock
deriving Repr, DecidableEq

/-- The parsed respondent answer document. -/
structure RespDoc where
  respondentanswer : Option RespondentAnswerBody
deriving Repr, DecidableEq

/-- Modelled from the spec: the source raises the Python builtin `KeyError`
both on a missing structural container and on the missing `#text` of a
matching `valueText` entry; the spec names the container failures
`DocumentFormatError`.  The embedding keeps the two apart: container
failures become `documentFormatError` (carrying the missing key) and the
remaining indexing failure stays `keyError`. -/
inductive SXError where
  | documentFormatError : String → SXError
  | keyError : String → SXError
deriving Repr, DecidableEq

/-- One entry of `questions_mapping`: the question's display text and its
choice-value-to-choice-text dict. -/
structure QuestionDef where
  text : String
  choices : Dict String
deriving Repr, DecidableEq

/-- One output record of `get_answers`. -/
structure NormalizedAnswer where
  respondent_id : String
  survey_id : String
  question_name : String
  question_text : String
  question_value : Option String
  choice_text : String
deriving Repr, DecidableEq

/-- `item['text'].get('#text', '')` / `choice['text'].get('#text', '')`. -/
def extractText (tb : TextBlock) : String :=
  match tb.hashText with
  | some s => s
  | none => ""

/-- The inner choice loop: `choices[choice['@value']] = choice['text'].get('#text', '')`. -/
def buildChoices (cs : List VarChoice) : Dict String :=
  cs.foldl (fun m c => m.set c.value (extractText c.text)) []

/-- The `QuestionDef` stored for one questionnaire variable:
`{'text': item['text'].get('#text', ''), 'choices': choices}`. -/
def qdefOfItem (item : QVar) : QuestionDef :=
  { text := extractText item.text
  , choices :=
      match item.varChoice with
      | some cs => buildChoices cs
      | none => [] }

/-- The loop building `questions_mapping` over `foreground_variables`. -/
def buildQuestionsMapping (vars : List QVar) : Dict QuestionDef :=
  vars.foldl (fun m item => m.set item.name (qdefOfItem item)) []

/-- `json_data['questionnaire']['foreground']['variable']`: each missing
container key aborts with the corresponding error. -/
def getForegroundVariables (qdoc : QDoc) : Except SXError (List QVar) :=
  match qdoc.questionnaire with
  | none => .error (.documentFormatError "questionnaire")
  | some qb =>
    match qb.foreground with
    | none => .error (.documentFormatError "foreground")
    | some fg =>
      match fg.«variable» with
      | none => .error (.documentFormatError "variable")
      | some vs => .ok vs

/-- `questions_mapping.get(question_name, {}).get('text', 'Unknown Question')`:
a stored question always has its `text` key, so the fallback fires exactly
when the question name is absent from the mapping. -/
def lookupQuestionText (qm : Dict QuestionDef) (qn : String) : String :=
  match qm.get? qn with
  | some q => q.text
  | none => "Unknown Question"

/-- `questions_mapping.get(question_name, {}).get('choices', {}).get(question_value, 'Unknown Choice')`. -/
def lookupChoiceText (qm : Dict QuestionDef) (qn qv : String) : String :=
  match qm.get? qn with
  | some q =>
    match q.choices.get? qv with
    | some t => t
    | none => "Unknown Choice"
  | none => "Unknown Choice"

/-- `next((item['#text'] for item in ...get('valueText', []) if item['@name'] == question_name), None)`:
scan for the first `valueText` entry with the given name; evaluating
`item['#text']` on a match that lacks the key raises `KeyError`. -/
def findTextAnswer (vts : List ValueText) (qn : String) : Except SXError (Option String) :=
  match vts.find? (fun item => item.name == qn) with
  | none => .ok none
  | some item =>
    match item.hashText with
    | some t => .ok (some t)
    | none => .error (.keyError "#text")

/-- Python truthiness of the optional `text_answer` string: `None` and the
empty string are falsy. -/
def pyTruthy : Option String → Bool
  | none => false
  | some s => !(s == "")

/-- The body of one pass-1 iteration: resolve texts, look for a free-text
override, and build the record appended for this `valueSingle` entry. -/
def record1 (qm : Dict QuestionDef) (rid sid : String) (vts : List ValueText)
    (vs : ValueSingle) : Except SXError NormalizedAnswer :=
  match findTextAnswer vts vs.name with
  | .error e => .error e
  | .ok none =>
    .ok { respondent_id := rid, survey_id := sid, question_name := vs.name
        , question_text := lookupQuestionText qm vs.name
        , question_value := some vs.choiceValue
        , choice_text := lookupChoiceText qm vs.name vs.choiceValue }
  | .ok (some t) =>
    if t == "" then
      .ok { respondent_id := rid, survey_id := sid, question_name := vs.name
          , question_text := lookupQuestionText qm vs.name
          , question_value := some vs.choiceValue
          , choice_text := lookupChoiceText qm vs.name vs.choiceValue }
    else
      .ok { respondent_id := rid, survey_id := sid, question_name := vs.name
          , question_text := lookupQuestionText qm vs.name
          , question_value := some vs.choiceValue
          , choice_text := t }

/-- Pass 1: the loop over `valueSingle` entries, appending one record each,
with `answers` the growing output list. -/
def pass1 (qm : Dict QuestionDef) (rid sid : String) (vts : List ValueText) :
    List ValueSingle → List NormalizedAnswer → Except SXError (List NormalizedAnswer)
  | [], answers => .ok answers
  | vs :: rest, answers =>
    match record1 qm rid sid vts vs with
    | .error e => .error e
    | .ok r => pass1 qm rid sid vts rest (answers ++ [r])

/-- The record a pass-2 iteration appends for one `valueText` entry, `none`
when `answer.get('#text', None)` is `None` (the `continue` branch). -/
def record2 (qm : Dict QuestionDef) (rid sid : String) (vt : ValueText) :
    Option NormalizedAnswer :=
  match vt.hashText with
  | none => none
  | some t =>
    some { respondent_id := rid, survey_id := sid, question_name := vt.name
         , question_text := lookupQuestionText qm vt.name, question_value := none
         , choice_text := t }

/-- Pass 2: the loop over `valueText` entries, skipping any whose name
already occurs in the output built so far
(`if not any(a['question_name'] == question_name for a in answers)`). -/
def pass2 (qm : Dict QuestionDef) (rid sid : String) :
    List ValueText → List NormalizedAnswer → List NormalizedAnswer
  | [], answers => answers
  | vt :: rest, answers =>
    if answers.any (fun a => a.question_name == vt.name) then
      pass2 qm rid sid rest answers
    else
      match record2 qm rid sid vt with
      | none => pass2 qm rid sid rest answers
      | some r => pass2 qm rid sid rest (answers ++ [r])

/-- `RespondentAnswers.get_answers` from the two parsed documents onward:
build `questions_mapping` from the questionnaire document, read the
respondent containers, then run the two reconciliation passes. -/
def get_answers (sid : String) (qdoc : QDoc) (rdoc : RespDoc) :
    Except SXError (List NormalizedAnswer) :=
  match getForegroundVariables qdoc with
  | .error e => .error e
  | .ok vars =>
    let qm := buildQuestionsMapping vars
    match rdoc.respondentanswer with
    | none => .error (.documentFormatError "respondentanswer")
    | some body =>
      let rid := body.key
      match body.answer with
      | none => .error (.documentFormatError "answer")
      | some ab =>
        match pass1 qm rid sid ab.valueText ab.valueSingle [] with
        | .error e => .error e
        | .ok answers => .ok (pass2 qm rid sid ab.valueText answers)


/-! ## Basic lemmas about the per-entry record builders -/

theorem findTextAnswer_of_no_match (vts : List ValueText) (qn : String)
    (h : ∀ vt ∈ vts, vt.name ≠ qn) : findTextAnswer vts qn = .ok none := by
  have hf : vts.find? (fun item => item.name == qn) = none :=
    List.find?_eq_none.mpr (fun vt hm => by simpa using h vt hm)
  simp [findTextAnswer, hf]

theorem findTextAnswer_error (vts : List ValueText) (qn : String) (e : SXError)
    (h : findTextAnswer vts qn = .error e) : e = .keyError "#text" := by
  unfold findTextAnswer at h
  split at h
  · cases h
  · split at h
    · cases h
    · cases h
      rfl

theorem record1_error (qm : Dict QuestionDef) (rid sid : String) (vts : List ValueText)
    (vs : ValueSingle) (e : SXError) (h : record1 qm rid sid vts vs = .error e) :
    e = .keyError "#text" := by
  unfold record1 at h
  split at h
  case _ e' hf =>
    cases h
    exact findTextAnswer_error vts vs.name e hf
  case _ => cases h
  case _ =>
    split at h <;> cases h

theorem record1_ok_core (qm : Dict QuestionDef) (rid sid : String) (vts : List ValueText)
    (vs : ValueSingle) (r : NormalizedAnswer) (h : record1 qm rid sid vts vs = .ok r) :
    r.respondent_id = rid ∧ r.survey_id = sid ∧ r.question_name = vs.name ∧
    r.question_text = lookupQuestionText qm vs.name ∧
    r.question_value = some vs.choiceValue := by
  unfold record1 at h
  split at h
  · cases h
  · cases h
    exact ⟨rfl, rfl, rfl, rfl, rfl⟩
  · split at h <;> (cases h; exact ⟨rfl, rfl, rfl, rfl, rfl⟩)

theorem record1_override (qm : Dict QuestionDef) (rid sid : String) (vts : List ValueText)
    (vs : ValueSingle) (t : String)
    (hf : findTextAnswer vts vs.name = .ok (some t)) (ht : t ≠ "") :
    record1 qm rid sid vts vs =
      .ok { respondent_id := rid, survey_id := sid, question_name := vs.name
          , question_text := lookupQuestionText qm vs.name
          , question_value := some vs.choiceValue, choice_text := t } := by
  simp [record1, hf, ht]

theorem record1_no_override (qm : Dict QuestionDef) (rid sid : String) (vts : List ValueText)
    (vs : ValueSingle) (ta : Option String)
    (hf : findTextAnswer vts vs.name = .ok ta) (hfalse : pyTruthy ta = false) :
    record1 qm rid sid vts vs =
      .ok { respondent_id := rid, survey_id := sid, question_name := vs.name
          , question_text := lookupQuestionText qm vs.name
          , question_value := some vs.choiceValue
          , choice_text := lookupChoiceText qm vs.name vs.choiceValue } := by
  cases ta with
  | none => simp [record1, hf]
  | some t =>
    have ht : t = "" := by simpa [pyTruthy] using hfalse
    simp [record1, hf, ht]

theorem record2_some (qm : Dict QuestionDef) (rid sid : String) (vt : ValueText)
    (r : NormalizedAnswer) (h : record2 qm rid sid vt = some r) :
    r.respondent_id = rid ∧ r.survey_id = sid ∧ r.question_name = vt.name ∧
    r.question_text = lookupQuestionText qm vt.name ∧ r.question_value = none ∧
    vt.hashText = some r.choice_text := by
  unfold record2 at h
  split at h
  · cases h
  case _ t ht =>
    cases h
    exact ⟨rfl, rfl, rfl, rfl, rfl, ht⟩

/-! ## Structural lemmas about the two passes -/

theorem pass1_ok_cons (qm : Dict QuestionDef) (rid sid : String) (vts : List ValueText)
    (vs : ValueSingle) (rest : List ValueSingle) (acc out : List NormalizedAnswer)
    (h : pass1 qm rid sid vts (vs :: rest) acc = .ok out) :
    ∃ r, record1 qm rid sid vts vs = .ok r ∧
      pass1 qm rid sid vts rest (acc ++ [r]) = .ok out := by
  unfold pass1 at h
  split at h
  · cases h
  case _ r hr => exact ⟨r, hr, h⟩

theorem pass1_prefix (qm : Dict QuestionDef) (rid sid : String) (vts : List ValueText)
    (vss : List ValueSingle) :
    ∀ acc out, pass1 qm rid sid vts vss acc = .ok out → ∃ t, out = acc ++ t := by
  induction vss with
  | nil =>
    intro acc out h
    unfold pass1 at h
    cases h
    exact ⟨[], by simp⟩
  | cons vs rest ih =>
    intro acc out h
    obtain ⟨r, _, h'⟩ := pass1_ok_cons qm rid sid vts vs rest acc out h
    obtain ⟨t, ht⟩ := ih (acc ++ [r]) out h'
    exact ⟨[r] ++ t, by simpa using ht⟩

theorem pass1_names (qm : Dict QuestionDef) (rid sid : String) (vts : List ValueText)
    (vss : List ValueSingle) :
    ∀ acc out, pass1 qm rid sid vts vss acc = .ok out →
      out.map NormalizedAnswer.question_name =
        acc.map NormalizedAnswer.question_name ++ vss.map ValueSingle.name := by
  induction vss with
  | nil =>
    intro acc out h
    unfold pass1 at h
    cases h
    simp
  | cons vs rest ih =>
    intro acc out h
    obtain ⟨r, hr, h'⟩ := pass1_ok_cons qm rid sid vts vs rest acc out h
    have hname : r.question_name = vs.name :=
      (record1_ok_core qm rid sid vts vs r hr).2.2.1
    have := ih (acc ++ [r]) out h'
    simpa [hname] using this

theorem pass1_mem (qm : Dict QuestionDef) (rid sid : String) (vts : List ValueText)
    (vss : List ValueSingle) :
    ∀ acc out r, pass1 qm rid sid vts vss acc = .ok out → r ∈ out →
      r ∈ acc ∨ ∃ vs ∈ vss, record1 qm rid sid vts vs = .ok r := by
  induction vss with
  | nil =>
    intro acc out r h hr
    unfold pass1 at h
    cases h
    exact Or.inl hr
  | cons vs rest ih =>
    intro acc out r h hr
    obtain ⟨r0, hr0, h'⟩ := pass1_ok_cons qm rid sid vts vs rest acc out h
    rcases ih (acc ++ [r0]) out r h' hr with hmem | ⟨vs', hvs', hrec⟩
    · rcases List.mem_append.mp hmem with hmem | hmem
      · exact Or.inl hmem
      · have : r = r0 := by simpa using hmem
        subst this
        exact Or.inr ⟨vs, List.mem_cons_self vs rest, hr0⟩
    · exact Or.inr ⟨vs', List.mem_cons_of_mem vs hvs', hrec⟩

theorem pass1_getElem (qm : Dict QuestionDef) (rid sid : String) (vts : List ValueText)
    (vss : List ValueSingle) :
    ∀ acc out i vs r, pass1 qm rid sid vts vss acc = .ok out →
      vss[i]? = some vs → record1 qm rid sid vts vs = .ok r →
      out[acc.length + i]? = some r := by
  induction vss with
  | nil =>
    intro acc out i vs r _ hi _
    simp at hi
  | cons vs0 rest ih =>
    intro acc out i vs r h hi hrec
    obtain ⟨r0, hr0, h'⟩ := pass1_ok_cons qm rid sid vts vs0 rest acc out h
    cases i with
    | zero =>
      have hvs : vs = vs0 := by simpa using hi.symm
      subst hvs
      have hrr : r = r0 := by
        rw [hrec] at hr0
        exact (Except.ok.injEq _ _).mp hr0
      subst hrr
      obtain ⟨t, hout⟩ := pass1_prefix qm rid sid vts rest (acc ++ [r]) out h'
      rw [hout]
      have : acc ++ [r] ++ t = acc ++ ([r] ++ t) := by simp
      rw [this, Nat.add_zero, List.getElem?_append_right (Nat.le_refl _)]
      simp
    | succ i =>
      have hi' : rest[i]? = some vs := by simpa using hi
      have := ih (acc ++ [r0]) out i vs r h' hi' hrec
      have hlen : (acc ++ [r0]).length + i = acc.length + (i + 1) := by
        simp
        omega
      rwa [hlen] at this

theorem pass1_error (qm : Dict QuestionDef) (rid sid : String) (vts : List ValueText)
    (vss : List ValueSingle) :
    ∀ acc e, pass1 qm rid sid vts vss acc = .error e → e = .keyError "#text" := by
  induction vss with
  | nil =>
    intro acc e h
    unfold pass1 at h
    cases h
  | cons vs rest ih =>
    intro acc e h
    unfold pass1 at h
    split at h
    case _ e' hr =>
      cases h
      exact record1_error qm rid sid vts vs e hr
    case _ r hr => exact ih (acc ++ [r]) e h

theorem pass2_shape (qm : Dict QuestionDef) (rid sid : String) (vts : List ValueText) :
    ∀ acc, ∃ t, pass2 qm rid sid vts acc = acc ++ t ∧
      List.Sublist (t.map NormalizedAnswer.question_name) (vts.map ValueText.name) := by
  induction vts with
  | nil =>
    intro acc
    exact ⟨[], by simp [pass2], List.nil_sublist _⟩
  | cons vt rest ih =>
    intro acc
    unfold pass2
    split
    · obtain ⟨t, ht, hsub⟩ := ih acc
      exact ⟨t, ht, hsub.cons vt.name⟩
    · cases hr : record2 qm rid sid vt with
      | none =>
        obtain ⟨t, ht, hsub⟩ := ih acc
        exact ⟨t, ht, hsub.cons vt.name⟩
      | some r =>
        obtain ⟨t, ht, hsub⟩ := ih (acc ++ [r])
        refine ⟨[r] ++ t, by simpa using ht, ?_⟩
        have hname : r.question_name = vt.name :=
          (record2_some qm rid sid vt r hr).2.2.1
        simpa [hname] using hsub.cons₂ vt.name

theorem pass2_nodup (qm : Dict QuestionDef) (rid sid : String) (vts : List ValueText) :
    ∀ acc, (acc.map NormalizedAnswer.question_name).Nodup →
      ((pass2 qm rid sid vts acc).map NormalizedAnswer.question_name).Nodup := by
  induction vts with
  | nil =>
    intro acc h
    simpa [pass2] using h
  | cons vt rest ih =>
    intro acc h
    unfold pass2
    split
    · exact ih acc h
    case _ hany =>
      cases hr : record2 qm rid sid vt with
      | none => exact ih acc h
      | some r =>
        refine ih (acc ++ [r]) ?_
        have hname : r.question_name = vt.name :=
          (record2_some qm rid sid vt r hr).2.2.1
        have hnotin : ∀ a ∈ acc, a.question_name ≠ vt.name := by
          intro a ha heq
          have : acc.any (fun a => a.question_name == vt.name) = true :=
            List.any_eq_true.mpr ⟨a, ha, by simpa using heq⟩
          exact absurd this hany
        rw [List.map_append]
        refine List.nodup_append.mpr ⟨h, by simp, ?_⟩
        intro x hx hx2
        obtain ⟨a, ha, rfl⟩ := List.mem_map.mp hx
        have hxname : a.question_name = vt.name := by
          have hx3 : a.question_name = r.question_name := by simpa using hx2
          rw [hx3, hname]
        exact hnotin a ha hxname

theorem pass2_mem (qm : Dict QuestionDef) (rid sid : String) (vts : List ValueText) :
    ∀ acc r, r ∈ pass2 qm rid sid vts acc →
      r ∈ acc ∨ ∃ vt ∈ vts, record2 qm rid sid vt = some r := by
  induction vts with
  | nil =>
    intro acc r h
    exact Or.inl (by simpa [pass2] using h)
  | cons vt rest ih =>
    intro acc r h
    unfold pass2 at h
    split at h
    · rcases ih acc r h with hm | ⟨vt', h1, h2⟩
      · exact Or.inl hm
      · exact Or.inr ⟨vt', List.mem_cons_of_mem vt h1, h2⟩
    · cases hr : record2 qm rid sid vt with
      | none =>
        rw [hr] at h
        rcases ih acc r h with hm | ⟨vt', h1, h2⟩
        · exact Or.inl hm
        · exact Or.inr ⟨vt', List.mem_cons_of_mem vt h1, h2⟩
      | some r0 =>
        rw [hr] at h
        rcases ih (acc ++ [r0]) r h with hm | ⟨vt', h1, h2⟩
        · rcases List.mem_append.mp hm with hm | hm
          · exact Or.inl hm
          · have : r = r0 := by simpa using hm
            subst this
            exact Or.inr ⟨vt, List.mem_cons_self vt rest, hr⟩
        · exact Or.inr ⟨vt', List.mem_cons_of_mem vt h1, h2⟩

/-! ## Inversion of a successful reconciliation run -/

theorem get_answers_ok_inv (sid : String) (qdoc : QDoc) (rdoc : RespDoc)
    (body : RespondentAnswerBody) (ab : AnswerBlock) (out : List NormalizedAnswer)
    (hb : rdoc.respondentanswer = some body) (ha : body.answer = some ab)
    (hok : get_answers sid qdoc rdoc = .ok out) :
    ∃ vars answers, getForegroundVariables qdoc = .ok vars ∧
      pass1 (buildQuestionsMapping vars) body.key sid ab.valueText ab.valueSingle []
        = .ok answers ∧
      out = pass2 (buildQuestionsMapping vars) body.key sid ab.valueText answers := by
  unfold get_answers at hok
  cases hfg : getForegroundVariables qdoc with
  | error e => rw [hfg] at hok; cases hok
  | ok vars =>
    simp only [hfg, hb, ha] at hok
    cases hp : pass1 (buildQuestionsMapping vars) body.key sid ab.valueText
        ab.valueSingle [] with
    | error e => rw [hp] at hok; cases hok
    | ok answers =>
      rw [hp] at hok
      cases hok
      exact ⟨vars, answers, rfl, hp, rfl⟩

/-- All five structural container keys that `get_answers` indexes
unconditionally are present. -/
def containersPresent (qdoc : QDoc) (rdoc : RespDoc) : Bool :=
  match qdoc.questionnaire with
  | none => false
  | some qb =>
    match qb.foreground with
    | none => false
    | some fg =>
      match fg.«variable» with
      | none => false
      | some _ =>
        match rdoc.respondentanswer with
        | none => false
        | some body =>
          match body.answer with
          | none => false
          | some _ => true

/-! ## The peripheral uploader (`CreateRespondent`) -/

/-- One HTTP response of the SurveyXact respondent endpoint. -/
structure HttpResponse where
  status_code : Nat
  text : String
deriving Repr, DecidableEq

/-- Outcome of one `requests.request` call: a response, or a raised
exception. -/
inductive HttpOutcome where
  | ok : HttpResponse → HttpOutcome
  | exn : HttpOutcome
deriving Repr, DecidableEq

/-- `CreateRespondent.insert_respondent` over a trace of pending HTTP
outcomes: the single `requests.request("POST", ...)` call consumes the head
of the trace.  An exception is re-raised; a non-200 status returns `None`
after logging; otherwise the response is returned.  The second component is
the trace left for later calls, so the number of consumed outcomes counts
the HTTP submissions performed. -/
def insert_respondent (trace : List HttpOutcome) :
    Except Unit (Option HttpResponse) × List HttpOutcome :=
  match trace with
  | [] => (.error (), [])
  | o :: rest =>
    match o with
    | .exn => (.error (), rest)
    | .ok resp =>
      if resp.status_code != 200 then (.ok none, rest) else (.ok (some resp), rest)

/-- The `for i in range(3)` body of `save_respondent_to_db`: attempt the
insert-and-commit; on success `break`; on failure re-raise when `i + 1 == 3`,
otherwise rebuild the connection and `continue`.  `outcome i` tells whether
the execute/commit of iteration `i` succeeds; the result on success is the
number of attempts made.  The `[]` fall-through returns without a made
attempt (unreachable for `range 3`, whose third failure raises). -/
def saveFrom (outcome : Nat → Bool) : List Nat → Except Unit Nat
  | [] => .ok 0
  | i :: is =>
    if outcome i then .ok (i + 1)
    else if i + 1 == 3 then .error ()
    else saveFrom outcome is

/-- `CreateRespondent.save_respondent_to_db`: the persistence step wrapped
in the retry loop over `range(3)`. -/
def save_respondent_to_db (outcome : Nat → Bool) : Except Unit Nat :=
  saveFrom outcome (List.range 3)

/-! ## Claim C1 -/

/-- Questionnaire input for the C1 counterexample: empty variable list. -/
def qdocC1 : QDoc := ⟨some ⟨some ⟨some []⟩⟩⟩

/-- Respondent input for the C1 counterexample: two `valueSingle` entries
with the same question name `Q1`. -/
def rdocC1 : RespDoc := ⟨some ⟨"r", some ⟨[⟨"Q1", "1"⟩, ⟨"Q1", "2"⟩], []⟩⟩⟩

/-- C1 fails as stated: two ChoiceAnswer entries for the same question name
produce two output records sharing that `question_name` — pass 1 performs no
deduplication. -/
theorem claim_C1_counterexample :
    Except.map (fun l => l.map NormalizedAnswer.question_name)
      (get_answers "s" qdocC1 rdocC1) = .ok ["Q1", "Q1"] := rfl

/-- C1 (amended): the output contains at most one record per distinct
`question_name` provided the `valueSingle` entries carry pairwise distinct
question names; pass 2 never duplicates a name already present, but pass 1
emits one record per `valueSingle` entry without deduplication. -/
theorem claim_C1_amended (sid : String) (qdoc : QDoc) (rdoc : RespDoc)
    (body : RespondentAnswerBody) (ab : AnswerBlock) (out : List NormalizedAnswer)
    (hb : rdoc.respondentanswer = some body) (ha : body.answer = some ab)
    (hnd : (ab.valueSingle.map ValueSingle.name).Nodup)
    (hok : get_answers sid qdoc rdoc = .ok out) :
    (out.map NormalizedAnswer.question_name).Nodup := by
  obtain ⟨vars, answers, hfg, hp, hout⟩ :=
    get_answers_ok_inv sid qdoc rdoc body ab out hb ha hok
  have hnames :=
    pass1_names (buildQuestionsMapping vars) body.key sid ab.valueText
      ab.valueSingle [] answers hp
  have hnd1 : (answers.map NormalizedAnswer.question_name).Nodup := by
    rw [hnames]
    simpa using hnd
  rw [hout]
  exact pass2_nodup (buildQuestionsMapping vars) body.key sid ab.valueText
    answers hnd1

/-- Questionnaire input for the C1 witness. -/
def qdocC1w : QDoc := ⟨some ⟨some ⟨some []⟩⟩⟩

/-- Respondent input for the C1 witness: distinct question names. -/
def rdocC1w : RespDoc := ⟨some ⟨"r", some ⟨[⟨"Q1", "1"⟩], [⟨"Q2", some "hi"⟩]⟩⟩⟩

/-- Output of `get_answers` on the C1 witness input. -/
def outC1w : List NormalizedAnswer :=
  [⟨"r", "s", "Q1", "Unknown Question", some "1", "Unknown Choice"⟩,
   ⟨"r", "s", "Q2", "Unknown Question", none, "hi"⟩]

/-- Witness for the amended C1 at a concrete input. -/
theorem claim_C1_witness : (outC1w.map NormalizedAnswer.question_name).Nodup :=
  claim_C1_amended "s" qdocC1w rdocC1w
    ⟨"r", some ⟨[⟨"Q1", "1"⟩], [⟨"Q2", some "hi"⟩]⟩⟩
    ⟨[⟨"Q1", "1"⟩], [⟨"Q2", some "hi"⟩]⟩ outC1w rfl rfl (by simp) rfl

/-! ## Claim C2 -/

/-- Questionnaire input for the C2 counterexample: `Q1` with coded choice
`1 → Yes`. -/
def qdocC2 : QDoc := ⟨some ⟨some ⟨some [⟨"Q1", ⟨some "T"⟩, some [⟨"1", ⟨some "Yes"⟩⟩]⟩]⟩⟩⟩

/-- Respondent input for the C2 counterexample: a ChoiceAnswer and a
TextAnswer exist for `Q1`, the TextAnswer's text being the empty string. -/
def rdocC2 : RespDoc := ⟨some ⟨"r", some ⟨[⟨"Q1", "1"⟩], [⟨"Q1", some ""⟩]⟩⟩⟩

/-- C2 fails as stated: a ChoiceAnswer and a TextAnswer exist for `Q1`, yet
the emitted record's `choice_text` is the coded text `Yes`, not the
TextAnswer's (empty) text — the `if text_answer:` truthiness test ignores an
empty-string override. -/
theorem claim_C2_counterexample :
    Except.map (fun l => l.map NormalizedAnswer.choice_text)
      (get_answers "s" qdocC2 rdocC2) = .ok ["Yes"] := rfl

/-- C2 (amended): when the first `valueText` entry for the question has a
present, non-empty text, the record emitted for the ChoiceAnswer carries
that text as `choice_text` and the coded value as `question_value`. -/
theorem claim_C2_amended (sid : String) (qdoc : QDoc) (rdoc : RespDoc)
    (vars : List QVar) (body : RespondentAnswerBody) (ab : AnswerBlock)
    (out : List NormalizedAnswer) (i : Nat) (vs : ValueSingle) (t : String)
    (hfg : getForegroundVariables qdoc = .ok vars)
    (hb : rdoc.respondentanswer = some body) (ha : body.answer = some ab)
    (hok : get_answers sid qdoc rdoc = .ok out)
    (hi : ab.valueSingle[i]? = some vs)
    (hta : findTextAnswer ab.valueText vs.name = .ok (some t))
    (ht : t ≠ "") :
    out[i]? = some { respondent_id := body.key, survey_id := sid
                   , question_name := vs.name
                   , question_text :=
                       lookupQuestionText (buildQuestionsMapping vars) vs.name
                   , question_value := some vs.choiceValue
                   , choice_text := t } := by
  obtain ⟨vars', answers, hfg', hp, hout⟩ :=
    get_answers_ok_inv sid qdoc rdoc body ab out hb ha hok
  rw [hfg] at hfg'
  cases hfg'
  have hrec :=
    record1_override (buildQuestionsMapping vars) body.key sid ab.valueText vs t hta ht
  have hidx :=
    pass1_getElem (buildQuestionsMapping vars) body.key sid ab.valueText
      ab.valueSingle [] answers i vs _ hp hi hrec
  obtain ⟨t2, ht2, _⟩ :=
    pass2_shape (buildQuestionsMapping vars) body.key sid ab.valueText answers
  have hidx' : answers[i]? =
      some { respondent_id := body.key, survey_id := sid, question_name := vs.name
           , question_text := lookupQuestionText (buildQuestionsMapping vars) vs.name
           , question_value := some vs.choiceValue, choice_text := t } := by
    simpa using hidx
  have hlt : i < answers.length := (List.getElem?_eq_some_iff.mp hidx').1
  rw [hout, ht2, List.getElem?_append_left hlt]
  exact hidx'

/-- Questionnaire input for the C2 witness (the spec §8 scenario). -/
def qdocC2w : QDoc :=
  ⟨some ⟨some ⟨some [⟨"Q1", ⟨some "Question one"⟩,
    some [⟨"1", ⟨some "Yes"⟩⟩, ⟨"2", ⟨some "No"⟩⟩]⟩]⟩⟩⟩

/-- Respondent input for the C2 witness. -/
def rdocC2w : RespDoc :=
  ⟨some ⟨"r", some ⟨[⟨"Q1", "1"⟩], [⟨"Q1", some "Maybe, unsure"⟩]⟩⟩⟩

/-- Witness for the amended C2 at the spec scenario. -/
theorem claim_C2_witness :
    [(⟨"r", "s", "Q1", "Question one", some "1", "Maybe, unsure"⟩ : NormalizedAnswer)][0]?
      = some { respondent_id := "r", survey_id := "s", question_name := "Q1"
             , question_text := "Question one", question_value := some "1"
             , choice_text := "Maybe, unsure" } :=
  claim_C2_amended "s" qdocC2w rdocC2w
    [⟨"Q1", ⟨some "Question one"⟩, some [⟨"1", ⟨some "Yes"⟩⟩, ⟨"2", ⟨some "No"⟩⟩]⟩]
    ⟨"r", some ⟨[⟨"Q1", "1"⟩], [⟨"Q1", some "Maybe, unsure"⟩]⟩⟩
    ⟨[⟨"Q1", "1"⟩], [⟨"Q1", some "Maybe, unsure"⟩]⟩
    [⟨"r", "s", "Q1", "Question one", some "1", "Maybe, unsure"⟩]
    0 ⟨"Q1", "1"⟩ "Maybe, unsure" rfl rfl rfl rfl rfl rfl (by decide)

/-! ## Claim C3 -/

/-- Questionnaire input for the C3 counterexample. -/
def qdocC3 : QDoc := ⟨some ⟨some ⟨some []⟩⟩⟩

/-- Respondent input for the C3 counterexample: a lone `valueText` entry
whose `#text` is the empty string. -/
def rdocC3 : RespDoc := ⟨some ⟨"r", some ⟨[], [⟨"Q1", some ""⟩]⟩⟩⟩

/-- C3 fails as stated: a `valueText` entry whose `#text` is the empty
string, with no ChoiceAnswer for the question, still produces an output
record (with empty `choice_text`) — the code skips only an absent `#text`
(`if text_answer is None`), not an empty one. -/
theorem claim_C3_counterexample :
    Except.map (fun l => l.map (fun r => (r.question_name, r.choice_text)))
      (get_answers "s" qdocC3 rdocC3) = .ok [("Q1", "")] := rfl

/-- C3 (amended): a question whose only answer entries are `valueText`
entries with an absent (`None`) text yields no output record; an empty
string text, however, is emitted. -/
theorem claim_C3_amended (sid : String) (qdoc : QDoc) (rdoc : RespDoc)
    (body : RespondentAnswerBody) (ab : AnswerBlock) (out : List NormalizedAnswer)
    (q : String)
    (hb : rdoc.respondentanswer = some body) (ha : body.answer = some ab)
    (hok : get_answers sid qdoc rdoc = .ok out)
    (hvs : ∀ vs ∈ ab.valueSingle, vs.name ≠ q)
    (hvt : ∀ vt ∈ ab.valueText, vt.name = q → vt.hashText = none) :
    ∀ r ∈ out, r.question_name ≠ q := by
  intro r hr
  obtain ⟨vars, answers, hfg, hp, hout⟩ :=
    get_answers_ok_inv sid qdoc rdoc body ab out hb ha hok
  rw [hout] at hr
  rcases pass2_mem (buildQuestionsMapping vars) body.key sid ab.valueText
      answers r hr with hm | ⟨vt, hvt', hr2⟩
  · rcases pass1_mem (buildQuestionsMapping vars) body.key sid ab.valueText
        ab.valueSingle [] answers r hp hm with h0 | ⟨vs, hvs', hr1⟩
    · simp at h0
    · have hname := (record1_ok_core _ _ _ _ _ _ hr1).2.2.1
      rw [hname]
      exact hvs vs hvs'
  · have hname := (record2_some _ _ _ _ _ hr2).2.2.1
    have htext := (record2_some _ _ _ _ _ hr2).2.2.2.2.2
    intro heq
    rw [hname] at heq
    have habs := hvt vt hvt' heq
    rw [habs] at htext
    cases htext

/-- Questionnaire input for the C3 witness. -/
def qdocC3w : QDoc := ⟨some ⟨some ⟨some []⟩⟩⟩

/-- Respondent input for the C3 witness: `Q9` appears only as a `valueText`
entry with absent text, `Q1` has a real text answer. -/
def rdocC3w : RespDoc := ⟨some ⟨"r", some ⟨[], [⟨"Q1", some "hi"⟩, ⟨"Q9", none⟩]⟩⟩⟩

/-- Witness for the amended C3: the single record the witness input produces
is not for the absent-text question `Q9`. -/
theorem claim_C3_witness :
    (⟨"r", "s", "Q1", "Unknown Question", none, "hi"⟩ : NormalizedAnswer).question_name
      ≠ "Q9" :=
  claim_C3_amended "s" qdocC3w rdocC3w
    ⟨"r", some ⟨[], [⟨"Q1", some "hi"⟩, ⟨"Q9", none⟩]⟩⟩
    ⟨[], [⟨"Q1", some "hi"⟩, ⟨"Q9", none⟩]⟩
    [⟨"r", "s", "Q1", "Unknown Question", none, "hi"⟩] "Q9" rfl rfl rfl
    (by simp)
    (by intro vt h; fin_cases h <;> simp)
    ⟨"r", "s", "Q1", "Unknown Question", none, "hi"⟩ (by simp)

/-! ## Positional helper shared by the pass-1 claims -/

theorem get_answers_pass1_getElem (sid : String) (qdoc : QDoc) (rdoc : RespDoc)
    (vars : List QVar) (body : RespondentAnswerBody) (ab : AnswerBlock)
    (out : List NormalizedAnswer) (i : Nat) (vs : ValueSingle) (r : NormalizedAnswer)
    (hfg : getForegroundVariables qdoc = .ok vars)
    (hb : rdoc.respondentanswer = some body) (ha : body.answer = some ab)
    (hok : get_answers sid qdoc rdoc = .ok out)
    (hi : ab.valueSingle[i]? = some vs)
    (hrec : record1 (buildQuestionsMapping vars) body.key sid ab.valueText vs = .ok r) :
    out[i]? = some r := by
  obtain ⟨vars', answers, hfg', hp, hout⟩ :=
    get_answers_ok_inv sid qdoc rdoc body ab out hb ha hok
  rw [hfg] at hfg'
  cases hfg'
  have hidx :=
    pass1_getElem (buildQuestionsMapping vars) body.key sid ab.valueText
      ab.valueSingle [] answers i vs r hp hi hrec
  have hidx' : answers[i]? = some r := by simpa using hidx
  obtain ⟨t2, ht2, _⟩ :=
    pass2_shape (buildQuestionsMapping vars) body.key sid ab.valueText answers
  have hlt : i < answers.length := (List.getElem?_eq_some_iff.mp hidx').1
  rw [hout, ht2, List.getElem?_append_left hlt]
  exact hidx'

/-! ## Claim C4 -/

/-- C4: a ChoiceAnswer whose question is in the index but whose
`choice_value` is not a key of that question's `choices` dict, with no
`valueText` entry for the question, yields a record with
`choice_text = "Unknown Choice"`. -/
theorem claim_C4 (sid : String) (qdoc : QDoc) (rdoc : RespDoc)
    (vars : List QVar) (body : RespondentAnswerBody) (ab : AnswerBlock)
    (out : List NormalizedAnswer) (i : Nat) (vs : ValueSingle) (qd : QuestionDef)
    (hfg : getForegroundVariables qdoc = .ok vars)
    (hb : rdoc.respondentanswer = some body) (ha : body.answer = some ab)
    (hok : get_answers sid qdoc rdoc = .ok out)
    (hi : ab.valueSingle[i]? = some vs)
    (hq : (buildQuestionsMapping vars).get? vs.name = some qd)
    (hc : qd.choices.get? vs.choiceValue = none)
    (hnt : ∀ vt ∈ ab.valueText, vt.name ≠ vs.name) :
    out[i]? = some { respondent_id := body.key, survey_id := sid
                   , question_name := vs.name
                   , question_text :=
                       lookupQuestionText (buildQuestionsMapping vars) vs.name
                   , question_value := some vs.choiceValue
                   , choice_text := "Unknown Choice" } := by
  have hta := findTextAnswer_of_no_match ab.valueText vs.name hnt
  have hrec :=
    record1_no_override (buildQuestionsMapping vars) body.key sid ab.valueText
      vs none hta rfl
  have hct : lookupChoiceText (buildQuestionsMapping vars) vs.name vs.choiceValue
      = "Unknown Choice" := by
    simp [lookupChoiceText, hq, hc]
  rw [hct] at hrec
  exact get_answers_pass1_getElem sid qdoc rdoc vars body ab out i vs _
    hfg hb ha hok hi hrec

/-- Questionnaire input for the C4 witness (the spec's `Q3` scenario). -/
def qdocC4w : QDoc :=
  ⟨some ⟨some ⟨some [⟨"Q3", ⟨some "Question three"⟩, some [⟨"1", ⟨some "A"⟩⟩]⟩]⟩⟩⟩

/-- Respondent input for the C4 witness: `ChoiceAnswer(Q3, "9")` where `Q3`
has choices `{"1": "A"}`. -/
def rdocC4w : RespDoc := ⟨some ⟨"r", some ⟨[⟨"Q3", "9"⟩], []⟩⟩⟩

/-- Witness for C4 at the spec's unknown-choice scenario. -/
theorem claim_C4_witness :
    [(⟨"r", "s", "Q3", "Question three", some "9", "Unknown Choice"⟩ : NormalizedAnswer)][0]?
      = some { respondent_id := "r", survey_id := "s", question_name := "Q3"
             , question_text := "Question three", question_value := some "9"
             , choice_text := "Unknown Choice" } :=
  claim_C4 "s" qdocC4w rdocC4w
    [⟨"Q3", ⟨some "Question three"⟩, some [⟨"1", ⟨some "A"⟩⟩]⟩]
    ⟨"r", some ⟨[⟨"Q3", "9"⟩], []⟩⟩ ⟨[⟨"Q3", "9"⟩], []⟩
    [⟨"r", "s", "Q3", "Question three", some "9", "Unknown Choice"⟩]
    0 ⟨"Q3", "9"⟩ ⟨"Question three", [("1", "A")]⟩
    rfl rfl rfl rfl rfl rfl rfl (by simp)

/-! ## Claim C5 -/

/-- C5: any record emitted for a question name absent from the index
carries `question_text = "Unknown Question"`, in both passes. -/
theorem claim_C5 (sid : String) (qdoc : QDoc) (rdoc : RespDoc)
    (vars : List QVar) (body : RespondentAnswerBody) (ab : AnswerBlock)
    (out : List NormalizedAnswer) (q : String)
    (hfg : getForegroundVariables qdoc = .ok vars)
    (hb : rdoc.respondentanswer = some body) (ha : body.answer = some ab)
    (hok : get_answers sid qdoc rdoc = .ok out)
    (hq : (buildQuestionsMapping vars).get? q = none) :
    ∀ r ∈ out, r.question_name = q → r.question_text = "Unknown Question" := by
  intro r hr hname
  obtain ⟨vars', answers, hfg', hp, hout⟩ :=
    get_answers_ok_inv sid qdoc rdoc body ab out hb ha hok
  rw [hfg] at hfg'
  cases hfg'
  have hlq : lookupQuestionText (buildQuestionsMapping vars) q = "Unknown Question" := by
    simp [lookupQuestionText, hq]
  rw [hout] at hr
  rcases pass2_mem (buildQuestionsMapping vars) body.key sid ab.valueText
      answers r hr with hm | ⟨vt, hvt, hr2⟩
  · rcases pass1_mem (buildQuestionsMapping vars) body.key sid ab.valueText
        ab.valueSingle [] answers r hp hm with h0 | ⟨vs, hvs, hr1⟩
    · simp at h0
    · have h1 := (record1_ok_core _ _ _ _ _ _ hr1).2.2.1
      have h2 := (record1_ok_core _ _ _ _ _ _ hr1).2.2.2.1
      have hvq : vs.name = q := by rw [← h1, hname]
      rw [h2, hvq]
      exact hlq
  · have h1 := (record2_some _ _ _ _ _ hr2).2.2.1
    have h2 := (record2_some _ _ _ _ _ hr2).2.2.2.1
    have hvq : vt.name = q := by rw [← h1, hname]
    rw [h2, hvq]
    exact hlq

/-- Questionnaire input for the C5 witness: empty index. -/
def qdocC5w : QDoc := ⟨some ⟨some ⟨some []⟩⟩⟩

/-- Respondent input for the C5 witness: a ChoiceAnswer for the unknown
question `QX`. -/
def rdocC5w : RespDoc := ⟨some ⟨"r", some ⟨[⟨"QX", "1"⟩], []⟩⟩⟩

/-- Witness for C5: the record emitted for `QX` carries the sentinel text. -/
theorem claim_C5_witness :
    (⟨"r", "s", "QX", "Unknown Question", some "1", "Unknown Choice"⟩
      : NormalizedAnswer).question_text = "Unknown Question" :=
  claim_C5 "s" qdocC5w rdocC5w [] ⟨"r", some ⟨[⟨"QX", "1"⟩], []⟩⟩
    ⟨[⟨"QX", "1"⟩], []⟩
    [⟨"r", "s", "QX", "Unknown Question", some "1", "Unknown Choice"⟩]
    "QX" rfl rfl rfl rfl rfl
    ⟨"r", "s", "QX", "Unknown Question", some "1", "Unknown Choice"⟩
    (by simp) rfl

/-! ## Claim C6 -/

/-- C6: the first `valueSingle.length` output records are exactly the pass-1
records, named after the `valueSingle` entries in document order, and the
remaining records' names form an order-preserving sublist of the `valueText`
entry names. -/
theorem claim_C6 (sid : String) (qdoc : QDoc) (rdoc : RespDoc)
    (body : RespondentAnswerBody) (ab : AnswerBlock) (out : List NormalizedAnswer)
    (hb : rdoc.respondentanswer = some body) (ha : body.answer = some ab)
    (hok : get_answers sid qdoc rdoc = .ok out) :
    (out.take ab.valueSingle.length).map NormalizedAnswer.question_name
        = ab.valueSingle.map ValueSingle.name ∧
    List.Sublist
      ((out.drop ab.valueSingle.length).map NormalizedAnswer.question_name)
      (ab.valueText.map ValueText.name) := by
  obtain ⟨vars, answers, hfg, hp, hout⟩ :=
    get_answers_ok_inv sid qdoc rdoc body ab out hb ha hok
  have hnames :=
    pass1_names (buildQuestionsMapping vars) body.key sid ab.valueText
      ab.valueSingle [] answers hp
  have hnames' : answers.map NormalizedAnswer.question_name
      = ab.valueSingle.map ValueSingle.name := by simpa using hnames
  have hlen : answers.length = ab.valueSingle.length := by
    have := congrArg List.length hnames'
    simpa using this
  obtain ⟨t2, ht2, hsub⟩ :=
    pass2_shape (buildQuestionsMapping vars) body.key sid ab.valueText answers
  rw [hout, ht2]
  constructor
  · rw [← hlen, List.take_left, hnames']
  · rw [← hlen, List.drop_left]
    exact hsub

/-- Questionnaire input for the C6 witness. -/
def qdocC6w : QDoc := ⟨some ⟨some ⟨some []⟩⟩⟩

/-- Respondent input for the C6 witness: one coded answer and one free-text
answer for distinct questions. -/
def rdocC6w : RespDoc := ⟨some ⟨"r", some ⟨[⟨"Q1", "1"⟩], [⟨"Q2", some "z"⟩]⟩⟩⟩

/-- Output of `get_answers` on the C6 witness input. -/
def outC6w : List NormalizedAnswer :=
  [⟨"r", "s", "Q1", "Unknown Question", some "1", "Unknown Choice"⟩,
   ⟨"r", "s", "Q2", "Unknown Question", none, "z"⟩]

/-- Witness for C6: the pass-1 record precedes the pass-2 record. -/
theorem claim_C6_witness :
    (outC6w.take 1).map NormalizedAnswer.question_name = ["Q1"] ∧
    List.Sublist ((outC6w.drop 1).map NormalizedAnswer.question_name) ["Q2"] :=
  claim_C6 "s" qdocC6w rdocC6w ⟨"r", some ⟨[⟨"Q1", "1"⟩], [⟨"Q2", some "z"⟩]⟩⟩
    ⟨[⟨"Q1", "1"⟩], [⟨"Q2", some "z"⟩]⟩ outC6w rfl rfl rfl

/-! ## Claim C7 -/

/-- C7: reconciliation fails with a `documentFormatError` (and hence
produces no output list) exactly when one of the structural containers
(`questionnaire`/`foreground`/`variable`, `respondentanswer`/`answer`) is
missing; with all containers present the only possible failure is the
`keyError` on a missing `#text`, never a `documentFormatError`. -/
theorem claim_C7 (sid : String) (qdoc : QDoc) (rdoc : RespDoc) :
    (∃ s, get_answers sid qdoc rdoc = .error (.documentFormatError s)) ↔
      containersPresent qdoc rdoc = false := by
  obtain ⟨oq⟩ := qdoc
  obtain ⟨orb⟩ := rdoc
  cases oq with
  | none =>
    constructor
    · intro _
      simp [containersPresent]
    · intro _
      exact ⟨"questionnaire", rfl⟩
  | some qb =>
    obtain ⟨ofg⟩ := qb
    cases ofg with
    | none =>
      constructor
      · intro _
        simp [containersPresent]
      · intro _
        exact ⟨"foreground", rfl⟩
    | some fg =>
      obtain ⟨ov⟩ := fg
      cases ov with
      | none =>
        constructor
        · intro _
          simp [containersPresent]
        · intro _
          exact ⟨"variable", rfl⟩
      | some vars =>
        cases orb with
        | none =>
          constructor
          · intro _
            simp [containersPresent]
          · intro _
            exact ⟨"respondentanswer", rfl⟩
        | some rb =>
          obtain ⟨key, oab⟩ := rb
          cases oab with
          | none =>
            constructor
            · intro _
              simp [containersPresent]
            · intro _
              exact ⟨"answer", rfl⟩
          | some ab =>
            simp only [containersPresent]
            constructor
            · rintro ⟨s, hs⟩
              cases hp : pass1 (buildQuestionsMapping vars) key sid ab.valueText
                  ab.valueSingle [] with
              | error e =>
                have he := pass1_error (buildQuestionsMapping vars) key sid
                  ab.valueText ab.valueSingle [] e hp
                have hga : get_answers sid ⟨some ⟨some ⟨some vars⟩⟩⟩
                    ⟨some ⟨key, some ab⟩⟩ = .error e := by
                  simp [get_answers, getForegroundVariables, hp]
                rw [hga, he] at hs
                simp at hs
              | ok answers =>
                have hga : get_answers sid ⟨some ⟨some ⟨some vars⟩⟩⟩
                    ⟨some ⟨key, some ab⟩⟩
                    = .ok (pass2 (buildQuestionsMapping vars) key sid
                        ab.valueText answers) := by
                  simp [get_answers, getForegroundVariables, hp]
                rw [hga] at hs
                simp at hs
            · intro h
              simp at h

/-! ## Claim C8 -/

theorem dict_get?_mem {α : Type} (m : Dict α) (k : String) (v : α)
    (h : Dict.get? m k = some v) : ∃ p ∈ m, p.2 = v := by
  unfold Dict.get? at h
  cases hf : m.find? (fun p => p.1 == k) with
  | none => rw [hf] at h; cases h
  | some p =>
    rw [hf] at h
    simp at h
    exact ⟨p, List.mem_of_find?_eq_some hf, h⟩

theorem dict_set_values {α : Type} (P : α → Prop) (m : Dict α) (k : String) (v : α)
    (hm : ∀ p ∈ m, P p.2) (hv : P v) : ∀ p ∈ m.set k v, P p.2 := by
  intro p hp
  unfold Dict.set at hp
  split at hp
  · obtain ⟨q, hq, hpq⟩ := List.mem_map.mp hp
    by_cases hk : (q.1 == k) = true
    · rw [if_pos hk] at hpq
      rw [← hpq]
      exact hv
    · rw [if_neg hk] at hpq
      rw [← hpq]
      exact hm q hq
  · rcases List.mem_append.mp hp with h | h
    · exact hm p h
    · have hpkv : p = (k, v) := by simpa using h
      rw [hpkv]
      exact hv

theorem buildChoices_values_aux : ∀ (cs : List VarChoice) (m : Dict String),
    (∀ c ∈ cs, c.text.hashText = none) → (∀ p ∈ m, p.2 = "") →
    ∀ p ∈ cs.foldl (fun m c => m.set c.value (extractText c.text)) m, p.2 = "" := by
  intro cs
  induction cs with
  | nil =>
    intro m _ hm p hp
    exact hm p (by simpa using hp)
  | cons c rest ih =>
    intro m h hm p hp
    rw [List.foldl_cons] at hp
    exact ih (m.set c.value (extractText c.text))
      (fun c' hc' => h c' (List.mem_cons_of_mem c hc'))
      (dict_set_values (fun x => x = "") m c.value (extractText c.text) hm
        (by simp [extractText, h c (List.mem_cons_self c rest)]))
      p hp

/-- C8: extraction of the question text and of each choice text substitutes
the empty string for a missing `#text` body instead of failing — the index
entry built for a variable whose text bodies are all absent has empty
question text and only empty choice texts, and the builder is a total
function. -/
theorem claim_C8 (item : QVar) :
    (item.text.hashText = none → (qdefOfItem item).text = "") ∧
    (∀ cs, item.varChoice = some cs → (∀ c ∈ cs, c.text.hashText = none) →
      ∀ v, (qdefOfItem item).choices.get? v = none ∨
           (qdefOfItem item).choices.get? v = some "") := by
  constructor
  · intro h
    simp [qdefOfItem, extractText, h]
  · intro cs hcs hall v
    have hch : (qdefOfItem item).choices = buildChoices cs := by
      simp [qdefOfItem, hcs]
    rw [hch]
    cases hg : (buildChoices cs).get? v with
    | none => exact Or.inl rfl
    | some t =>
      obtain ⟨p, hp, hpt⟩ := dict_get?_mem _ v t hg
      have ht : t = "" := by
        rw [← hpt]
        exact buildChoices_values_aux cs [] hall (by simp) p hp
      exact Or.inr (by rw [ht])

/-- Questionnaire variable for the C8 witness: all text bodies absent. -/
def itemC8w : QVar := ⟨"Q", ⟨none⟩, some [⟨"1", ⟨none⟩⟩]⟩

/-- Witness for C8 at a variable with every `#text` missing. -/
theorem claim_C8_witness :
    (qdefOfItem itemC8w).text = "" ∧
    ((qdefOfItem itemC8w).choices.get? "1" = none ∨
     (qdefOfItem itemC8w).choices.get? "1" = some "") :=
  ⟨(claim_C8 itemC8w).1 rfl,
   (claim_C8 itemC8w).2 [⟨"1", ⟨none⟩⟩] rfl
     (by intro c hc; fin_cases hc; rfl) "1"⟩

/-! ## Claim C9 -/

/-- C9: the uploader retries only the persistence step, up to 3 attempts,
re-raising the failure only after the third; it succeeds on the first
successful attempt (so at most 3 executions happen); and the HTTP
submission consumes exactly one outcome of the trace — it is performed once
and never retried. -/
theorem claim_C9 :
    (∀ outcome : Nat → Bool, outcome 0 = false → outcome 1 = false →
        outcome 2 = false → save_respondent_to_db outcome = .error ()) ∧
    (∀ (outcome : Nat → Bool) (i : Nat), i < 3 → outcome i = true →
        (∀ j, j < i → outcome j = false) →
        save_respondent_to_db outcome = .ok (i + 1)) ∧
    (∀ (o : HttpOutcome) (rest : List HttpOutcome),
        (insert_respondent (o :: rest)).2 = rest) := by
  refine ⟨?_, ?_, ?_⟩
  · intro outcome h0 h1 h2
    simp [save_respondent_to_db, show List.range 3 = [0, 1, 2] from rfl,
      saveFrom, h0, h1, h2]
  · intro outcome i hi hsucc hprev
    interval_cases i
    · simp [save_respondent_to_db, show List.range 3 = [0, 1, 2] from rfl,
        saveFrom, hsucc]
    · have h0 : outcome 0 = false := hprev 0 (by omega)
      simp [save_respondent_to_db, show List.range 3 = [0, 1, 2] from rfl,
        saveFrom, h0, hsucc]
    · have h0 : outcome 0 = false := hprev 0 (by omega)
      have h1 : outcome 1 = false := hprev 1 (by omega)
      simp [save_respondent_to_db, show List.range 3 = [0, 1, 2] from rfl,
        saveFrom, h0, h1, hsucc]
  · intro o rest
    cases o with
    | exn => rfl
    | ok resp =>
      by_cases h : (resp.status_code != 200) = true
      · simp [insert_respondent, h]
      · simp [insert_respondent, h]

/-- Witness for C9: all-failing persistence raises; success on the second
attempt stops after 2 attempts; the HTTP step consumes one outcome. -/
theorem claim_C9_witness :
    save_respondent_to_db (fun _ => false) = .error () ∧
    save_respondent_to_db (fun n => n == 1) = .ok 2 ∧
    (insert_respondent [.ok ⟨200, "ok"⟩, .exn]).2 = [.exn] := by
  refine ⟨claim_C9.1 (fun _ => false) rfl rfl rfl,
          claim_C9.2.1 (fun n => n == 1) 1 (by omega) rfl ?_,
          claim_C9.2.2 (.ok ⟨200, "ok"⟩) [.exn]⟩
  intro j hj
  have hj0 : j = 0 := by omega
  rw [hj0]
  rfl

/-! ## Claim C10 -/

/-- C10: a ChoiceAnswer for a question absent from the index, with no
truthy free-text override, yields a record with both sentinels at once,
`question_text = "Unknown Question"` and `choice_text = "Unknown Choice"`,
for any `choice_value`. -/
theorem claim_C10 (sid : String) (qdoc : QDoc) (rdoc : RespDoc)
    (vars : List QVar) (body : RespondentAnswerBody) (ab : AnswerBlock)
    (out : List NormalizedAnswer) (i : Nat) (vs : ValueSingle) (ta : Option String)
    (hfg : getForegroundVariables qdoc = .ok vars)
    (hb : rdoc.respondentanswer = some body) (ha : body.answer = some ab)
    (hok : get_answers sid qdoc rdoc = .ok out)
    (hi : ab.valueSingle[i]? = some vs)
    (hq : (buildQuestionsMapping vars).get? vs.name = none)
    (hta : findTextAnswer ab.valueText vs.name = .ok ta)
    (hfalse : pyTruthy ta = false) :
    out[i]? = some { respondent_id := body.key, survey_id := sid
                   , question_name := vs.name
                   , question_text := "Unknown Question"
                   , question_value := some vs.choiceValue
                   , choice_text := "Unknown Choice" } := by
  have hrec :=
    record1_no_override (buildQuestionsMapping vars) body.key sid ab.valueText
      vs ta hta hfalse
  have h1 : lookupQuestionText (buildQuestionsMapping vars) vs.name
      = "Unknown Question" := by
    simp [lookupQuestionText, hq]
  have h2 : lookupChoiceText (buildQuestionsMapping vars) vs.name vs.choiceValue
      = "Unknown Choice" := by
    simp [lookupChoiceText, hq]
  rw [h1, h2] at hrec
  exact get_answers_pass1_getElem sid qdoc rdoc vars body ab out i vs _
    hfg hb ha hok hi hrec

/-- Questionnaire input for the C10 witness: empty index. -/
def qdocC10w : QDoc := ⟨some ⟨some ⟨some []⟩⟩⟩

/-- Respondent input for the C10 witness: a ChoiceAnswer for the unknown
question `QX` and no text answers. -/
def rdocC10w : RespDoc := ⟨some ⟨"r", some ⟨[⟨"QX", "5"⟩], []⟩⟩⟩

/-- Witness for C10: both sentinels appear on the record for `QX`. -/
theorem claim_C10_witness :
    [(⟨"r", "s", "QX", "Unknown Question", some "5", "Unknown Choice"⟩
      : NormalizedAnswer)][0]?
      = some { respondent_id := "r", survey_id := "s", question_name := "QX"
             , question_text := "Unknown Question", question_value := some "5"
             , choice_text := "Unknown Choice" } :=
  claim_C10 "s" qdocC10w rdocC10w [] ⟨"r", some ⟨[⟨"QX", "5"⟩], []⟩⟩
    ⟨[⟨"QX", "5"⟩], []⟩
    [⟨"r", "s", "QX", "Unknown Question", some "5", "Unknown Choice"⟩]
    0 ⟨"QX", "5"⟩ none rfl rfl rfl rfl rfl rfl rfl rfl
